import Mathlib

/-!
# Shallow embedding of `gas_gcal_pto_user_sync.js`

This file embeds the calendar-sync script (`setup2`, `sync2`, `importEvent2`,
`findEvents2`, `shouldImportEvent2`) in Lean 4 and proves/refutes the frozen
claims about it.

Modelling conventions:
* JavaScript strings are Lean `String`s; `toLowerCase` is modelled by mapping
  `Char.toLower` over the characters (identical on the ASCII data involved).
* A JavaScript property that may be `undefined` is an `Option`.
* A `Date` value is the number of milliseconds since the Unix epoch (a `Nat`);
  the host's RFC3339 formatting/parsing is modelled by the instant itself.
  `Date.prototype.getUTCDay` is `jsGetUTCDay` (epoch day 0 was a Thursday).
* An unhandled JavaScript `TypeError` (e.g. `event.summary.toLowerCase()` when
  `summary` is `undefined`) is modelled by `Option`/`Res.thrown` propagation.
* The paginated `do … while (pageToken)` loop of `findEvents2` is modelled
  with explicit fuel; `Res.outOfFuel` for every fuel value means the loop
  never terminates.
* The external Calendar provider is a parameter: `Calendar.Events.list` is a
  function from `(email, params)` to `Except` (error = thrown exception), and
  the success/failure of `Calendar.Events.import` is an oracle
  `importOk : Event → Bool` (its exception is caught inside `importEvent2`).
-/

/-- An entry of `event.attendees`. -/
structure Attendee where
  email : Option String
  self : Bool
  responseStatus : Option String
deriving DecidableEq, Repr

/-- The `event.start` object: `dateTime`/`date` hold the epoch-milliseconds
instant that the corresponding RFC3339/date string parses to; `none` means the
field is absent (or falsy). -/
structure EventStart where
  dateTime : Option Nat
  date : Option Nat
deriving DecidableEq, Repr

/-- The `event.organizer` object. -/
structure Organizer where
  email : Option String
  id : Option String
deriving DecidableEq, Repr

/-- A calendar event, with exactly the fields the script touches.
`summary = none` and `start = none` model absent properties, whose
dereference raises a `TypeError`. -/
structure Event where
  summary : Option String
  start : Option EventStart
  organizer : Option Organizer
  attendees : Option (List Attendee)
  eventType : Option String
  outOfOfficeProperties : Option String
  focusTimeProperties : Option String
deriving DecidableEq, Repr

/-- `KEYWORDS2` from the source configuration. -/
def KEYWORDS2 : List String :=
  ["pto", "ooo", "out of office", "offline", "vacation", "PTO", "Out of office"]

/-- `MONTHS_IN_ADVANCE2` from the source configuration. -/
def MONTHS_IN_ADVANCE2 : Nat := 3

/-- `String.prototype.toLowerCase`, as the character data of the string
(ASCII-faithful). -/
def lowerData (s : String) : List Char :=
  s.data.map Char.toLower

/-- `String.prototype.indexOf pat` on character lists: the first index at
which `pat` occurs as a substring, or `-1`. -/
def jsIndexOf (l pat : List Char) : Int :=
  match (List.range (l.length + 1)).find? (fun i => pat.isPrefixOf (l.drop i)) with
  | some i => (i : Int)
  | none => -1

/-- `Date.prototype.getUTCDay` on an epoch-milliseconds instant:
0 = Sunday, …, 6 = Saturday (day 0 of the epoch was a Thursday). -/
def jsGetUTCDay (ms : Nat) : Nat :=
  (ms / 86400000 + 4) % 7

/-- The instant `new Date(event.start.dateTime || event.start.date)` is built
from: the `dateTime` field if truthy, else the `date` field; `none` when both
are absent (the resulting `Date` is Invalid and its `getUTCDay` is `NaN`). -/
def effectiveStart (st : EventStart) : Option Nat :=
  st.dateTime.orElse (fun _ => st.date)

/-- The UTC weekday of the event's start, `none` for an Invalid date
(`NaN` weekday). -/
def startDay (st : EventStart) : Option Nat :=
  (effectiveStart st).map jsGetUTCDay

/-- `shouldImportEvent2(email, keyword, event)` (source lines 166-193).
`none` models an unhandled `TypeError` (reading `toLowerCase` of an absent
`summary`, or a field of an absent `start`). -/
def shouldImportEvent2 (email keyword : String) (event : Event) : Option Bool :=
  match event.summary with
  | none => none
  | some summary =>
    if jsIndexOf (lowerData summary) keyword.data < 0 then
      some false
    else
      match event.start with
      | none => none
      | some st =>
        if startDay st = some 0 ∨ startDay st = some 6 then
          some false
        else
          match event.organizer with
          | none => some true
          | some organizer =>
            if organizer.email = some email then
              some true
            else
              match event.attendees with
              | none => some false
              | some attendees =>
                match attendees.filter (fun a => a.self) with
                | [] => some false
                | a :: _ => some (a.responseStatus == some "accepted")

/-- Spec-side predicate: the summary contains the keyword
**case-insensitively** (both sides lower-cased) — the containment relation the
claims quantify over. -/
def containsCaseInsensitive (s keyword : String) : Bool :=
  decide (0 ≤ jsIndexOf (lowerData s) (lowerData keyword))

/-- Epoch-milliseconds instants of concrete 1970 dates used in witnesses. -/
def mondayMs : Nat := 4 * 86400000

def tuesdayMs : Nat := 5 * 86400000

def saturdayMs : Nat := 2 * 86400000

def sundayMs : Nat := 3 * 86400000

/-- One page of a `Calendar.Events.list` response. -/
structure Page where
  items : List Event
  nextPageToken : Option String
deriving DecidableEq, Repr

/-- The `params` object built by `findEvents2` (source lines 127-138, 142).
Instants are epoch milliseconds (the RFC3339 strings the host formats from
them). -/
structure ListParams where
  q : String
  timeMin : Nat
  timeMax : Nat
  showDeleted : Bool
  updatedMin : Option Nat
  pageToken : Option String
deriving DecidableEq, Repr

/-- The external `Calendar.Events.list` endpoint: from an email address and a
params object to a page, or a thrown exception (`Except.error`). -/
def Provider : Type := String → ListParams → Except String Page

/-- Outcome of running a piece of the script: normal return, an uncaught
exception propagating, or — for the fueled pagination loop — fuel exhaustion
(`outOfFuel` for every fuel value means the loop never terminates). -/
inductive Res (α : Type) where
  | ok : α → Res α
  | thrown : Res α
  | outOfFuel : Res α
deriving DecidableEq, Repr

/-- `res.isOkB` is `true` exactly when the run returned normally. -/
def Res.isOkB : Res α → Bool
  | Res.ok _ => true
  | Res.thrown => false
  | Res.outOfFuel => false

/-- `response.items.filter(item => shouldImportEvent2(email, keyword, item))`
(source lines 150-152): keeps the accepted events in order, and propagates
(`none`) the `TypeError` thrown by `shouldImportEvent2` on the first
malformed item. -/
def filterImport (email keyword : String) : List Event → Option (List Event)
  | [] => some []
  | e :: rest =>
    match shouldImportEvent2 email keyword e with
    | none => none
    | some b =>
      (filterImport email keyword rest).map (fun r => if b then e :: r else r)

/-- The `do … while (pageToken)` loop of `findEvents2` (source lines
139-154), with explicit fuel. The `catch` branch performs `continue`, which
in a `do…while` jumps to the condition test with `pageToken` unchanged: on
the first page (`pageToken = none`) the loop exits returning the events so
far, on a later page the very same request is issued again. -/
def findEvents2Loop (provider : Provider) (email : String) (params : ListParams) :
    Option String → List Event → Nat → Res (List Event)
  | _, _, 0 => Res.outOfFuel
  | pageToken, events, Nat.succ fuel =>
    match provider email { params with pageToken := pageToken } with
    | Except.error _ =>
      match pageToken with
      | none => Res.ok events
      | some t => findEvents2Loop provider email params (some t) events fuel
    | Except.ok response =>
      match filterImport email params.q response.items with
      | none => Res.thrown
      | some kept =>
        match response.nextPageToken with
        | none => Res.ok (events ++ kept)
        | some t => findEvents2Loop provider email params (some t) (events ++ kept) fuel

/-- `findEvents2(email, keyword, start, end, optSince)` (source lines
126-156). -/
def findEvents2 (provider : Provider) (email keyword : String)
    (startMs endMs : Nat) (optSince : Option Nat) (fuel : Nat) : Res (List Event) :=
  findEvents2Loop provider email
    { q := keyword, timeMin := startMs, timeMax := endMs, showDeleted := true
      updatedMin := optSince, pageToken := none }
    none [] fuel

/-- JavaScript string coercion of a possibly-absent string, as used by the
`+` concatenation in `importEvent2`. -/
def jsStringOf : Option String → String
  | some s => s
  | none => "undefined"

/-- The mutation `importEvent2` applies to the event before calling
`Calendar.Events.import` (source lines 93-105): prefix the summary with
`[username]`, replace the organizer by the team calendar's identity, clear
attendees, and downgrade a non-`default` `eventType` to `default`, deleting
`outOfOfficeProperties` and `focusTimeProperties`. -/
def importTransform (teamCalendarId username : String) (event : Event) : Event :=
  let e1 : Event :=
    { event with
      summary := some ("[" ++ username ++ "] " ++ jsStringOf event.summary)
      organizer := some { email := none, id := some teamCalendarId }
      attendees := some [] }
  if e1.eventType = some "default" then
    e1
  else
    { e1 with
      eventType := some "default"
      outOfOfficeProperties := none
      focusTimeProperties := none }

/-- `importEvent2(username, event)` (source lines 92-113): transform the
event, then attempt the import; the import exception is caught inside, so
the call always returns. The `Bool` records whether the provider-side import
succeeded (`importOk`). -/
def importEvent2 (teamCalendarId : String) (importOk : Event → Bool)
    (username : String) (event : Event) : Event × Bool :=
  let m := importTransform teamCalendarId username event
  (m, importOk m)

/-- The `events.forEach(event => { importEvent2(username, event); count++ })`
body of `sync2` (source lines 75-78) over one filtered event list: returns
(count increment, import attempts in order, successfully imported events). -/
def processEvents (teamCalendarId : String) (importOk : Event → Bool)
    (username : String) : List Event → Nat × List Event × List Event
  | [] => (0, [], [])
  | e :: rest =>
    let a := importEvent2 teamCalendarId importOk username e
    let r := processEvents teamCalendarId importOk username rest
    (r.1 + 1, a.1 :: r.2.1, if a.2 then a.1 :: r.2.2 else r.2.2)

/-- The inner `KEYWORDS2.forEach` loop of `sync2` (source lines 73-79) for
one user. -/
def processKeywords (teamCalendarId : String) (provider : Provider)
    (importOk : Event → Bool) (email username : String) (today maxDate : Nat)
    (lastRun : Option Nat) (fuel : Nat) : List String → Res (Nat × List Event × List Event)
  | [] => Res.ok (0, [], [])
  | keyword :: rest =>
    match findEvents2 provider email keyword today maxDate lastRun fuel with
    | Res.thrown => Res.thrown
    | Res.outOfFuel => Res.outOfFuel
    | Res.ok events =>
      let r := processEvents teamCalendarId importOk username events
      match processKeywords teamCalendarId provider importOk email username
          today maxDate lastRun fuel rest with
      | Res.thrown => Res.thrown
      | Res.outOfFuel => Res.outOfFuel
      | Res.ok r2 => Res.ok (r.1 + r2.1, r.2.1 ++ r2.2.1, r.2.2 ++ r2.2.2)

/-- The characters before the first `'@'` (all of them when there is none):
the character data of `email.split('@')[0]`. -/
def takeUntilAt : List Char → List Char
  | [] => []
  | c :: rest => if c = '@' then [] else c :: takeUntilAt rest

/-- `email.split('@')[0]`: the part of the address before the first `'@'`. -/
def jsSplitAtHead (email : String) : String :=
  ⟨takeUntilAt email.data⟩

/-- The outer `USER_EMAILS2.forEach` loop of `sync2` (source lines 71-80);
`username = email.split('@')[0]`. -/
def processUsers (teamCalendarId : String) (provider : Provider)
    (importOk : Event → Bool) (keywords : List String) (today maxDate : Nat)
    (lastRun : Option Nat) (fuel : Nat) : List String → Res (Nat × List Event × List Event)
  | [] => Res.ok (0, [], [])
  | email :: rest =>
    let username := jsSplitAtHead email
    match processKeywords teamCalendarId provider importOk email username
        today maxDate lastRun fuel keywords with
    | Res.thrown => Res.thrown
    | Res.outOfFuel => Res.outOfFuel
    | Res.ok r =>
      match processUsers teamCalendarId provider importOk keywords today maxDate
          lastRun fuel rest with
      | Res.thrown => Res.thrown
      | Res.outOfFuel => Res.outOfFuel
      | Res.ok r2 => Res.ok (r.1 + r2.1, r.2.1 ++ r2.2.1, r.2.2 ++ r2.2.2)

/-- Static configuration of the script: `TEAM_CALENDAR_ID2`, `USER_EMAILS2`,
`KEYWORDS2`. -/
structure SyncConfig where
  teamCalendarId : String
  userEmails : List String
  keywords : List String
deriving DecidableEq, Repr

/-- Result of a completed `sync2` pass: the logged counter, the import
attempts (every transformed event passed to `Calendar.Events.import`, in
order), the successfully imported ones, and the value stored under
`lastRun` by the final `setProperty`. -/
structure SyncOutcome where
  count : Nat
  attempts : List Event
  succeeded : List Event
  lastRunAfter : Option Nat
deriving DecidableEq, Repr

/-- `sync2()` (source lines 58-84). `today` is the instant captured at pass
start; `maxDate` is the host's `today + MONTHS_IN_ADVANCE2` months; `props`
is the stored `lastRun` property read at pass start. The final
`setProperty('lastRun', today)` is reached only on normal return. -/
def sync2 (cfg : SyncConfig) (provider : Provider) (importOk : Event → Bool)
    (today maxDate : Nat) (props : Option Nat) (fuel : Nat) : Res SyncOutcome :=
  let lastRun := props
  match processUsers cfg.teamCalendarId provider importOk cfg.keywords today
      maxDate lastRun fuel cfg.userEmails with
  | Res.thrown => Res.thrown
  | Res.outOfFuel => Res.outOfFuel
  | Res.ok r => Res.ok { count := r.1, attempts := r.2.1, succeeded := r.2.2
                         lastRunAfter := some today }

/-- The value of the `lastRun` script property after a run of `sync2`: it is
overwritten with `today` by the final `setProperty` on normal return, and
keeps its previous value when the pass dies earlier. -/
def syncFinalProps (cfg : SyncConfig) (provider : Provider) (importOk : Event → Bool)
    (today maxDate : Nat) (props : Option Nat) (fuel : Nat) : Option Nat :=
  match sync2 cfg provider importOk today maxDate props fuel with
  | Res.ok o => o.lastRunAfter
  | Res.thrown => props
  | Res.outOfFuel => props

/-- A time-based project trigger as created by
`ScriptApp.newTrigger('sync2').timeBased().everyHours(1).create()`. -/
structure Trigger where
  handlerFunction : String
  everyHours : Nat
deriving DecidableEq, Repr

/-- Result of a successful `setup2` call: the project triggers after the
call and the outcome of the immediately-run first `sync2`. -/
structure SetupResult where
  triggers : List Trigger
  syncRes : Res SyncOutcome
  finalProps : Option Nat
deriving DecidableEq, Repr

/-- `setup2()` (source lines 44-52): throws if any project trigger already
exists; otherwise creates the hourly `sync2` trigger and then runs `sync2`
once. The trigger is created before `sync2` runs. -/
def setup2 (triggers : List Trigger) (cfg : SyncConfig) (provider : Provider)
    (importOk : Event → Bool) (today maxDate : Nat) (props : Option Nat)
    (fuel : Nat) : Except String SetupResult :=
  if triggers.length > 0 then
    Except.error "Triggers are already setup."
  else
    Except.ok
      { triggers := triggers ++ [{ handlerFunction := "sync2", everyHours := 1 }]
        syncRes := sync2 cfg provider importOk today maxDate props fuel
        finalProps := syncFinalProps cfg provider importOk today maxDate props fuel }

/-! ## Concrete fixtures used in counterexamples and witnesses -/

/-- A Monday event titled "PTO Monday" with no organizer. -/
def evPTOMonday : Event :=
  { summary := some "PTO Monday"
    start := some { dateTime := none, date := some mondayMs }
    organizer := none
    attendees := none
    eventType := some "default"
    outOfOfficeProperties := none
    focusTimeProperties := none }

/-- A Monday "pto day" event organized by someone else, whose attendee list
has two `self = true` entries: a declined one first, an accepted one second. -/
def evTwoSelf : Event :=
  { summary := some "pto day"
    start := some { dateTime := none, date := some mondayMs }
    organizer := some { email := some "alice@example.com", id := none }
    attendees := some
      [ { email := some "bob@example.com", self := true, responseStatus := some "declined" }
      , { email := some "bob@example.com", self := true, responseStatus := some "accepted" } ]
    eventType := some "default"
    outOfOfficeProperties := none
    focusTimeProperties := none }

/-- A Monday "Offsite vacation" event organized by someone else, where the
user's own entry (the only `self = true` one) has accepted. -/
def evAcceptedOffsite : Event :=
  { summary := some "Offsite vacation"
    start := some { dateTime := none, date := some mondayMs }
    organizer := some { email := some "alice@example.com", id := none }
    attendees := some
      [ { email := some "carol@example.com", self := false, responseStatus := some "needsAction" }
      , { email := some "bob@example.com", self := true, responseStatus := some "accepted" } ]
    eventType := some "default"
    outOfOfficeProperties := none
    focusTimeProperties := none }

/-- A Saturday event created by the user themselves. -/
def evSaturday : Event :=
  { summary := some "Team pto"
    start := some { dateTime := some saturdayMs, date := none }
    organizer := some { email := some "bob@example.com", id := none }
    attendees := none
    eventType := some "default"
    outOfOfficeProperties := none
    focusTimeProperties := none }

/-- A Monday event with no `summary` field (the provider query sets
`showDeleted: true`, and such items can lack a summary). -/
def evNoSummary : Event :=
  { summary := none
    start := some { dateTime := none, date := some mondayMs }
    organizer := none
    attendees := none
    eventType := some "default"
    outOfOfficeProperties := none
    focusTimeProperties := none }

/-- A Monday event whose summary matches both the keyword "pto" and the
keyword "ooo". -/
def evPtoOoo : Event :=
  { summary := some "pto ooo Monday"
    start := some { dateTime := none, date := some mondayMs }
    organizer := none
    attendees := none
    eventType := some "outOfOffice"
    outOfOfficeProperties := some "declineMode"
    focusTimeProperties := none }

/-- A provider whose every `list` call throws. -/
def failingProvider : Provider := fun _ _ => Except.error "Backend error"

/-- A provider whose first page succeeds with a continuation token `page2`
and whose request for that second page always throws. -/
def laterFailProvider : Provider := fun _ params =>
  match params.pageToken with
  | none => Except.ok { items := [], nextPageToken := some "page2" }
  | some _ => Except.error "Backend error"

/-- A provider returning the single event `e` on one page, for every query. -/
def singleEventProvider (e : Event) : Provider := fun _ _ =>
  Except.ok { items := [e], nextPageToken := none }

/-- Configuration with one user and the single keyword "pto". -/
def cfgBobPto : SyncConfig :=
  { teamCalendarId := "team@group.calendar.google.com"
    userEmails := ["bob@example.com"]
    keywords := ["pto"] }

/-- Configuration with one user and the two keywords "pto" and "ooo". -/
def cfgBobTwoKeywords : SyncConfig :=
  { teamCalendarId := "team@group.calendar.google.com"
    userEmails := ["bob@example.com"]
    keywords := ["pto", "ooo"] }

/-! ## Projections and spec-side derived notions -/

/-- The boolean the code's attendee branch computes: `matching.length > 0 &&
matching[0].responseStatus === 'accepted'`, where `matching` is the list of
attendee entries with `self = true` (so only the **first** such entry is
consulted). -/
def firstSelfAccepted : Option (List Attendee) → Bool
  | none => false
  | some attendees =>
    match attendees.filter (fun a => a.self) with
    | [] => false
    | a :: _ => a.responseStatus == some "accepted"

/-- Number of events in a finished `findEvents2` result (0 when it did not
finish normally). -/
def resLen : Res (List Event) → Nat
  | Res.ok events => events.length
  | Res.thrown => 0
  | Res.outOfFuel => 0

/-- The logged counter of a finished pass (0 when the pass did not finish). -/
def resCount : Res SyncOutcome → Nat
  | Res.ok o => o.count
  | Res.thrown => 0
  | Res.outOfFuel => 0

/-- The import attempts of a finished pass. -/
def resAttempts : Res SyncOutcome → List Event
  | Res.ok o => o.attempts
  | Res.thrown => []
  | Res.outOfFuel => []

/-- The successfully imported events of a finished pass. -/
def resSucceeded : Res SyncOutcome → List Event
  | Res.ok o => o.succeeded
  | Res.thrown => []
  | Res.outOfFuel => []

/-- Forgets the successfully-imported list of a per-user/per-keyword loop
result, keeping count and attempts. -/
def dropSucceeded : Res (Nat × List Event × List Event) → Res (Nat × List Event)
  | Res.ok r => Res.ok (r.1, r.2.1)
  | Res.thrown => Res.thrown
  | Res.outOfFuel => Res.outOfFuel

/-- The components of a pass outcome that do not mention the set of
successful imports: termination status, counter, attempts, stored watermark. -/
def importIndependentView : Res SyncOutcome → Res (Nat × List Event × Option Nat)
  | Res.ok o => Res.ok (o.count, o.attempts, o.lastRunAfter)
  | Res.thrown => Res.thrown
  | Res.outOfFuel => Res.outOfFuel

/-- Total number of events passing `shouldImportEvent2` for one user over a
keyword list. -/
def keywordFilteredCount (provider : Provider) (email : String) (today maxDate : Nat)
    (lastRun : Option Nat) (fuel : Nat) (keywords : List String) : Nat :=
  (keywords.map (fun kw => resLen (findEvents2 provider email kw today maxDate lastRun fuel))).sum

/-- Total number of events passing `shouldImportEvent2`, summed over all
(user, keyword) pairs of the configuration. -/
def passFilteredCount (cfg : SyncConfig) (provider : Provider) (today maxDate : Nat)
    (props : Option Nat) (fuel : Nat) : Nat :=
  (cfg.userEmails.map (fun email =>
    keywordFilteredCount provider email today maxDate props fuel cfg.keywords)).sum

/-- Reference computation of the keyword loop's count and attempts for one
user, written without the import-success oracle (the oracle cannot influence
them, which `processKeywords_spec` proves). -/
def keywordsView (t : String) (provider : Provider) (e u : String) (td md : Nat)
    (lr : Option Nat) (fuel : Nat) : List String → Res (Nat × List Event)
  | [] => Res.ok (0, [])
  | kw :: rest =>
    match findEvents2 provider e kw td md lr fuel with
    | Res.thrown => Res.thrown
    | Res.outOfFuel => Res.outOfFuel
    | Res.ok events =>
      match keywordsView t provider e u td md lr fuel rest with
      | Res.thrown => Res.thrown
      | Res.outOfFuel => Res.outOfFuel
      | Res.ok r2 =>
        Res.ok (events.length + r2.1, events.map (importTransform t u) ++ r2.2)

/-- Reference computation of the user loop's count and attempts, without
the import-success oracle. -/
def usersView (t : String) (provider : Provider) (kws : List String) (td md : Nat)
    (lr : Option Nat) (fuel : Nat) : List String → Res (Nat × List Event)
  | [] => Res.ok (0, [])
  | email :: rest =>
    match keywordsView t provider email (jsSplitAtHead email) td md lr fuel kws with
    | Res.thrown => Res.thrown
    | Res.outOfFuel => Res.outOfFuel
    | Res.ok r =>
      match usersView t provider kws td md lr fuel rest with
      | Res.thrown => Res.thrown
      | Res.outOfFuel => Res.outOfFuel
      | Res.ok r2 => Res.ok (r.1 + r2.1, r.2 ++ r2.2)

/-! ## Helper lemmas -/

/-- Each `events.forEach` body runs once per filtered event: the counter
increment equals the list length and the attempts are exactly the transforms
of the filtered events, in order, whatever the import oracle does. -/
theorem processEvents_length_map (t : String) (f : Event → Bool) (u : String)
    (evs : List Event) :
    (processEvents t f u evs).1 = evs.length
    ∧ (processEvents t f u evs).2.1 = evs.map (importTransform t u) := by
  induction evs with
  | nil => exact ⟨rfl, rfl⟩
  | cons e rest ih =>
    refine ⟨?_, ?_⟩ <;> simp [processEvents, importEvent2, ih.1, ih.2]

/-- Retrying the second page of `laterFailProvider` never terminates: the
loop consumes all fuel re-issuing the same failed request. -/
theorem findEvents2Loop_laterFail (email : String) (params : ListParams)
    (t : String) (events : List Event) (fuel : Nat) :
    findEvents2Loop laterFailProvider email params (some t) events fuel =
      Res.outOfFuel := by
  induction fuel generalizing events with
  | zero => rfl
  | succ n ih => exact ih events

/-! ## C5 -/

/-- C5: for every event whose start (the `dateTime` field if truthy, else
`date`) falls on Saturday or Sunday in UTC, `shouldImportEvent2` returns
false, regardless of organizer, attendees or response status (the summary
and start objects being present, so that the function returns at all). -/
theorem shouldImportEvent2_weekend_rejected (email keyword : String) (ev : Event)
    (st : EventStart)
    (hsummary : ev.summary.isSome = true)
    (hstart : ev.start = some st)
    (hweekend : startDay st = some 0 ∨ startDay st = some 6) :
    shouldImportEvent2 email keyword ev = some false := by
  obtain ⟨s, hs⟩ := Option.isSome_iff_exists.mp hsummary
  by_cases hk : jsIndexOf (lowerData s) keyword.data < 0
  · simp only [shouldImportEvent2, hs, hstart, if_pos hk]
  · simp only [shouldImportEvent2, hs, hstart, if_neg hk, if_pos hweekend]

/-- C5 witness: a Saturday event organized by the user themselves, with a
matching summary, is rejected. -/
theorem shouldImportEvent2_weekend_rejected_witness :
    startDay { dateTime := some saturdayMs, date := none } = some 6
    ∧ shouldImportEvent2 "bob@example.com" "pto" evSaturday = some false :=
  ⟨by decide,
   shouldImportEvent2_weekend_rejected "bob@example.com" "pto" evSaturday
     { dateTime := some saturdayMs, date := none } (by decide) (by decide)
     (Or.inr (by decide))⟩

/-! ## C1 -/

/-- C1 counterexample: the configured keyword "PTO" is mixed-case, and the
code lower-cases only the summary, so an event whose summary contains "PTO"
case-insensitively, starting on a Monday, with no organizer, is rejected —
the claim asserts it is accepted. -/
theorem shouldImportEvent2_mixedCaseKeyword_counterexample :
    "PTO" ∈ KEYWORDS2
    ∧ containsCaseInsensitive "PTO Monday" "PTO" = true
    ∧ evPTOMonday.summary = some "PTO Monday"
    ∧ evPTOMonday.start = some { dateTime := none, date := some mondayMs }
    ∧ startDay { dateTime := none, date := some mondayMs } = some 1
    ∧ evPTOMonday.organizer = none
    ∧ shouldImportEvent2 "bob@example.com" "PTO" evPTOMonday = some false := by
  refine ⟨by decide, by decide, by decide, by decide, by decide, by decide, by decide⟩

/-- C1 (amended): for every event whose **lower-cased** summary contains the
keyword as a case-sensitive substring (`jsIndexOf ≥ 0` — so the match is
case-insensitive on the summary side only, and mixed-case keywords never
match), whose start weekday (UTC) is Monday-Friday, and whose organizer is
absent or has the queried user's address, `shouldImportEvent2` returns
true. -/
theorem shouldImportEvent2_owner_weekday_accepted (email keyword : String)
    (ev : Event) (s : String) (st : EventStart) (d : Nat)
    (hsummary : ev.summary = some s)
    (hmatch : 0 ≤ jsIndexOf (lowerData s) keyword.data)
    (hstart : ev.start = some st)
    (hday : startDay st = some d) (hd1 : 1 ≤ d) (hd5 : d ≤ 5)
    (horg : ev.organizer = none ∨ ev.organizer.bind Organizer.email = some email) :
    shouldImportEvent2 email keyword ev = some true := by
  have hlt : ¬ jsIndexOf (lowerData s) keyword.data < 0 := not_lt.mpr hmatch
  have hw : ¬ (startDay st = some 0 ∨ startDay st = some 6) := by
    rw [hday]
    rintro (h | h) <;> (injection h with h; omega)
  cases hoo : ev.organizer with
  | none =>
    simp only [shouldImportEvent2, hsummary, hstart, if_neg hlt, if_neg hw, hoo]
  | some org =>
    rcases horg with h | h
    · rw [hoo] at h
      exact absurd h (by simp)
    · rw [hoo] at h
      have he : org.email = some email := h
      simp only [shouldImportEvent2, hsummary, hstart, if_neg hlt, if_neg hw, hoo,
        if_pos he]

/-- C1 (amended) witness: a Monday event titled "PTO Monday" with no
organizer is accepted under the all-lower-case keyword "pto". -/
theorem shouldImportEvent2_owner_weekday_accepted_witness :
    0 ≤ jsIndexOf (lowerData "PTO Monday") "pto".data
    ∧ shouldImportEvent2 "bob@example.com" "pto" evPTOMonday = some true :=
  ⟨by decide,
   shouldImportEvent2_owner_weekday_accepted "bob@example.com" "pto" evPTOMonday
     "PTO Monday" { dateTime := none, date := some mondayMs } 1
     (by decide) (by decide) (by decide) (by decide) (by decide) (by decide)
     (Or.inl (by decide))⟩

/-! ## C2 -/

/-- C2 counterexample: the code consults only the **first** `self = true`
attendee entry. Here the summary matches, the start is a Monday, the
organizer differs from the user, and *some* attendee entry has `self = true`
with `responseStatus = "accepted"` (the second one) — yet
`shouldImportEvent2` returns false, against the claim's "if and only if some
entry". -/
theorem shouldImportEvent2_someAccepted_counterexample :
    containsCaseInsensitive "pto day" "pto" = true
    ∧ evTwoSelf.start = some { dateTime := none, date := some mondayMs }
    ∧ startDay { dateTime := none, date := some mondayMs } = some 1
    ∧ evTwoSelf.organizer = some { email := some "alice@example.com", id := none }
    ∧ (evTwoSelf.attendees.getD []).any
        (fun a => a.self && a.responseStatus == some "accepted") = true
    ∧ shouldImportEvent2 "bob@example.com" "pto" evTwoSelf = some false := by
  refine ⟨by decide, by decide, by decide, by decide, by decide, by decide⟩

/-- C2 (amended): for an event whose lower-cased summary contains the
keyword, whose UTC start weekday is Monday-Friday and whose organizer is
present and different from the queried user, `shouldImportEvent2` returns
the verdict of the **first** `self = true` attendee entry: true exactly when
the attendee list is present, has at least one `self = true` entry, and the
first such entry has `responseStatus = "accepted"`; false when attendees are
absent, no entry has `self = true`, or the first such entry is not
accepted. -/
theorem shouldImportEvent2_firstSelfAttendee_decides (email keyword : String)
    (ev : Event) (s : String) (st : EventStart) (d : Nat) (org : Organizer)
    (hsummary : ev.summary = some s)
    (hmatch : 0 ≤ jsIndexOf (lowerData s) keyword.data)
    (hstart : ev.start = some st)
    (hday : startDay st = some d) (hd1 : 1 ≤ d) (hd5 : d ≤ 5)
    (horg : ev.organizer = some org) (hne : org.email ≠ some email) :
    shouldImportEvent2 email keyword ev = some (firstSelfAccepted ev.attendees)
    ∧ (shouldImportEvent2 email keyword ev = some true ↔
        ∃ atts a, ev.attendees = some atts
          ∧ (atts.filter (fun x => x.self)).head? = some a
          ∧ a.responseStatus = some "accepted") := by
  have hlt : ¬ jsIndexOf (lowerData s) keyword.data < 0 := not_lt.mpr hmatch
  have hw : ¬ (startDay st = some 0 ∨ startDay st = some 6) := by
    rw [hday]
    rintro (h | h) <;> (injection h with h; omega)
  have hcode : shouldImportEvent2 email keyword ev
      = some (firstSelfAccepted ev.attendees) := by
    simp only [shouldImportEvent2, hsummary, hstart, if_neg hlt, if_neg hw, horg,
      if_neg hne]
    cases hat : ev.attendees with
    | none => rfl
    | some atts =>
      simp only [firstSelfAccepted]
      cases atts.filter (fun a => a.self) with
      | nil => rfl
      | cons a rest => rfl
  refine ⟨hcode, ?_⟩
  rw [hcode]
  constructor
  · intro h
    injection h with h
    cases hat : ev.attendees with
    | none => rw [hat] at h; exact absurd h (by simp [firstSelfAccepted])
    | some atts =>
      rw [hat] at h
      cases hfil : atts.filter (fun x => x.self) with
      | nil => simp [firstSelfAccepted, hfil] at h
      | cons a rest =>
        refine ⟨atts, a, rfl, by rw [hfil]; rfl, ?_⟩
        simp only [firstSelfAccepted, hfil, beq_iff_eq] at h
        exact h
  · rintro ⟨atts, a, hat, hhead, hacc⟩
    rw [hat]
    cases hfil : atts.filter (fun x => x.self) with
    | nil => rw [hfil] at hhead; exact absurd hhead (by simp)
    | cons b rest =>
      rw [hfil] at hhead
      have hb : b = a := by
        simpa using hhead
      simp [firstSelfAccepted, hfil, hb, hacc]

/-- C2 (amended) witness: an "Offsite vacation" Monday event organized by
someone else whose single `self = true` entry has accepted is imported. -/
theorem shouldImportEvent2_firstSelfAttendee_decides_witness :
    shouldImportEvent2 "bob@example.com" "vacation" evAcceptedOffsite
      = some (firstSelfAccepted evAcceptedOffsite.attendees)
    ∧ firstSelfAccepted evAcceptedOffsite.attendees = true :=
  ⟨(shouldImportEvent2_firstSelfAttendee_decides "bob@example.com" "vacation"
      evAcceptedOffsite "Offsite vacation" { dateTime := none, date := some mondayMs }
      1 { email := some "alice@example.com", id := none }
      (by decide) (by decide) (by decide) (by decide) (by decide) (by decide)
      (by decide) (by decide)).1,
   by decide⟩

/-! ## C6 -/

/-- C6: the mirroring transform always yields summary `"[" ++ username ++ "] "`
prefixed to the source summary, the organizer replaced by the team calendar's
identity, an empty attendee list, and `eventType = "default"`; a non-default
`eventType` is downgraded to `"default"` with its `outOfOfficeProperties` and
`focusTimeProperties` payload discarded. -/
theorem importTransform_mirrored_shape (teamCal username : String) (ev : Event)
    (s : String) (hsummary : ev.summary = some s) :
    (importTransform teamCal username ev).summary = some ("[" ++ username ++ "] " ++ s)
    ∧ (importTransform teamCal username ev).organizer
        = some { email := none, id := some teamCal }
    ∧ (importTransform teamCal username ev).attendees = some []
    ∧ (importTransform teamCal username ev).eventType = some "default"
    ∧ (ev.eventType ≠ some "default" →
        (importTransform teamCal username ev).outOfOfficeProperties = none
        ∧ (importTransform teamCal username ev).focusTimeProperties = none) := by
  by_cases h : ev.eventType = some "default"
  · refine ⟨?_, ?_, ?_, ?_, fun hne => absurd h hne⟩ <;>
      simp [importTransform, jsStringOf, hsummary, h]
  · refine ⟨?_, ?_, ?_, ?_, fun _ => ⟨?_, ?_⟩⟩ <;>
      simp [importTransform, jsStringOf, hsummary, h]

/-- C6 witness: mirroring the out-of-office event `evPtoOoo` for user
"alice" prefixes the summary, clears attendees, replaces the organizer and
downgrades the event type, discarding the out-of-office payload. -/
theorem importTransform_mirrored_shape_witness :
    evPtoOoo.eventType = some "outOfOffice"
    ∧ evPtoOoo.outOfOfficeProperties = some "declineMode"
    ∧ (importTransform "team@group.calendar.google.com" "alice" evPtoOoo).summary
        = some "[alice] pto ooo Monday"
    ∧ (importTransform "team@group.calendar.google.com" "alice" evPtoOoo).organizer
        = some { email := none, id := some "team@group.calendar.google.com" }
    ∧ (importTransform "team@group.calendar.google.com" "alice" evPtoOoo).attendees
        = some []
    ∧ (importTransform "team@group.calendar.google.com" "alice" evPtoOoo).eventType
        = some "default"
    ∧ (importTransform "team@group.calendar.google.com" "alice" evPtoOoo).outOfOfficeProperties
        = none :=
  ⟨by decide, by decide,
   (importTransform_mirrored_shape "team@group.calendar.google.com" "alice"
      evPtoOoo "pto ooo Monday" (by decide)).1,
   (importTransform_mirrored_shape "team@group.calendar.google.com" "alice"
      evPtoOoo "pto ooo Monday" (by decide)).2.1,
   (importTransform_mirrored_shape "team@group.calendar.google.com" "alice"
      evPtoOoo "pto ooo Monday" (by decide)).2.2.1,
   (importTransform_mirrored_shape "team@group.calendar.google.com" "alice"
      evPtoOoo "pto ooo Monday" (by decide)).2.2.2.1,
   ((importTransform_mirrored_shape "team@group.calendar.google.com" "alice"
      evPtoOoo "pto ooo Monday" (by decide)).2.2.2.2 (by decide)).1⟩

/-! ## C8 -/

/-- C8: with no existing trigger, `setup2` registers exactly one hourly
`sync2` trigger; calling it again while that trigger exists raises the
"Triggers are already setup." error (the throw happens before any trigger
creation, so no second trigger is created). -/
theorem setup2_second_call_rejected (cfg cfg2 : SyncConfig)
    (provider provider2 : Provider) (f f2 : Event → Bool)
    (today today2 maxDate maxDate2 : Nat) (props props2 : Option Nat)
    (fuel fuel2 : Nat) :
    (setup2 [] cfg provider f today maxDate props fuel).map SetupResult.triggers
      = Except.ok [{ handlerFunction := "sync2", everyHours := 1 }]
    ∧ setup2 [{ handlerFunction := "sync2", everyHours := 1 }] cfg2 provider2 f2
        today2 maxDate2 props2 fuel2
      = Except.error "Triggers are already setup." :=
  ⟨rfl, rfl⟩

/-! ## C3 -/

/-- C3 (code bug): a provider failure on the *first* page is indeed logged
and isolated — the pair contributes zero events and `findEvents2` returns —
but on any *subsequent* page the `continue` statement jumps back to the
`while (pageToken)` test with `pageToken` unchanged, so the very same
request is re-issued forever: for every fuel value the loop has not
terminated, i.e. `findEvents2` never returns and the pass hangs instead of
continuing with the next keyword/user. -/
theorem findEvents2_laterPageFailure_neverReturns (fuel : Nat) :
    findEvents2 failingProvider "bob@example.com" "pto" 1000 2000 none (fuel + 1)
      = Res.ok []
    ∧ findEvents2 laterFailProvider "bob@example.com" "pto" 1000 2000 none fuel
      = Res.outOfFuel := by
  constructor
  · rfl
  · cases fuel with
    | zero => rfl
    | succ n => exact findEvents2Loop_laterFail _ _ _ _ n

/-! ## Import-oracle independence machinery (helpers for C4, C7, C10) -/

/-- The count/attempts part of one user's keyword loop equals the
oracle-free reference computation, for every import-success oracle. -/
theorem processKeywords_spec (t : String) (provider : Provider)
    (f : Event → Bool) (e u : String) (td md : Nat) (lr : Option Nat)
    (fuel : Nat) (kws : List String) :
    dropSucceeded (processKeywords t provider f e u td md lr fuel kws)
      = keywordsView t provider e u td md lr fuel kws := by
  induction kws with
  | nil => rfl
  | cons kw rest ih =>
    simp only [processKeywords, keywordsView]
    cases findEvents2 provider e kw td md lr fuel with
    | thrown => rfl
    | outOfFuel => rfl
    | ok events =>
      rw [← ih]
      cases h1 : processKeywords t provider f e u td md lr fuel rest with
      | thrown => rfl
      | outOfFuel => rfl
      | ok r =>
        have h := processEvents_length_map t f u events
        simp only [dropSucceeded, h.1, h.2]

/-- The count/attempts part of the user loop equals the oracle-free
reference computation, for every import-success oracle. -/
theorem processUsers_spec (t : String) (provider : Provider) (f : Event → Bool)
    (kws : List String) (td md : Nat) (lr : Option Nat) (fuel : Nat)
    (emails : List String) :
    dropSucceeded (processUsers t provider f kws td md lr fuel emails)
      = usersView t provider kws td md lr fuel emails := by
  induction emails with
  | nil => rfl
  | cons email rest ih =>
    simp only [processUsers, usersView]
    rw [← processKeywords_spec t provider f email (jsSplitAtHead email) td md lr fuel kws]
    cases processKeywords t provider f email (jsSplitAtHead email) td md lr fuel kws with
    | thrown => rfl
    | outOfFuel => rfl
    | ok r =>
      rw [← ih]
      cases processUsers t provider f kws td md lr fuel rest with
      | thrown => rfl
      | outOfFuel => rfl
      | ok r2 => rfl

/-- The oracle-independent view of a whole pass, in terms of `usersView`. -/
theorem sync2_view (cfg : SyncConfig) (provider : Provider) (f : Event → Bool)
    (today maxDate : Nat) (props : Option Nat) (fuel : Nat) :
    importIndependentView (sync2 cfg provider f today maxDate props fuel)
      = match usersView cfg.teamCalendarId provider cfg.keywords today maxDate
            props fuel cfg.userEmails with
        | Res.ok r => Res.ok (r.1, r.2, some today)
        | Res.thrown => Res.thrown
        | Res.outOfFuel => Res.outOfFuel := by
  rw [← processUsers_spec cfg.teamCalendarId provider f cfg.keywords today maxDate
    props fuel cfg.userEmails]
  simp only [sync2]
  cases processUsers cfg.teamCalendarId provider f cfg.keywords today maxDate props
      fuel cfg.userEmails with
  | thrown => rfl
  | outOfFuel => rfl
  | ok r => rfl

/-- Whether the pass finishes, its counter, its attempts and the watermark it
stores do not depend on which provider-side imports succeed. -/
theorem sync2_importOk_irrelevant (cfg : SyncConfig) (provider : Provider)
    (f g : Event → Bool) (today maxDate : Nat) (props : Option Nat) (fuel : Nat) :
    importIndependentView (sync2 cfg provider f today maxDate props fuel)
      = importIndependentView (sync2 cfg provider g today maxDate props fuel) := by
  rw [sync2_view cfg provider f today maxDate props fuel,
    sync2_view cfg provider g today maxDate props fuel]

/-- Equal oracle-independent views give equal status, counter and attempts. -/
theorem res_components_of_view_eq {x y : Res SyncOutcome}
    (h : importIndependentView x = importIndependentView y) :
    x.isOkB = y.isOkB ∧ resCount x = resCount y ∧ resAttempts x = resAttempts y := by
  cases x <;> cases y <;>
    simp_all [importIndependentView, resCount, resAttempts, Res.isOkB]

/-- A pass that returns normally stores `today` as the new watermark. -/
theorem sync2_ok_lastRun (cfg : SyncConfig) (provider : Provider)
    (f : Event → Bool) (today maxDate : Nat) (props : Option Nat) (fuel : Nat)
    (o : SyncOutcome)
    (h : sync2 cfg provider f today maxDate props fuel = Res.ok o) :
    o.lastRunAfter = some today := by
  simp only [sync2] at h
  split at h
  · exact Res.noConfusion h
  · exact Res.noConfusion h
  · injection h with h2
    rw [← h2]

/-! ## C4 -/

/-- C4: a sync pass that runs to completion unconditionally persists `today`
as the new `lastRun` watermark — and since per-event import failures are
caught inside `importEvent2` (here: any other import oracle `g`), they can
never change that: the pass with any import behavior stores the same
watermark. -/
theorem sync2_watermark_unconditional (cfg : SyncConfig) (provider : Provider)
    (f g : Event → Bool) (today maxDate : Nat) (props : Option Nat) (fuel : Nat)
    (h : (sync2 cfg provider f today maxDate props fuel).isOkB = true) :
    syncFinalProps cfg provider f today maxDate props fuel = some today
    ∧ syncFinalProps cfg provider g today maxDate props fuel = some today := by
  have hview := sync2_importOk_irrelevant cfg provider f g today maxDate props fuel
  have hg : (sync2 cfg provider g today maxDate props fuel).isOkB = true := by
    rw [← (res_components_of_view_eq hview).1]
    exact h
  constructor
  · cases hf : sync2 cfg provider f today maxDate props fuel with
    | thrown => rw [hf] at h; simp [Res.isOkB] at h
    | outOfFuel => rw [hf] at h; simp [Res.isOkB] at h
    | ok o =>
      have hl := sync2_ok_lastRun cfg provider f today maxDate props fuel o hf
      simp [syncFinalProps, hf, hl]
  · cases hgr : sync2 cfg provider g today maxDate props fuel with
    | thrown => rw [hgr] at hg; simp [Res.isOkB] at hg
    | outOfFuel => rw [hgr] at hg; simp [Res.isOkB] at hg
    | ok o =>
      have hl := sync2_ok_lastRun cfg provider g today maxDate props fuel o hgr
      simp [syncFinalProps, hgr, hl]

/-- C4 witness: the concrete pass over one user and keyword completes, and
the watermark becomes 1000 both when every import succeeds and also when
every import fails. -/
theorem sync2_watermark_unconditional_witness :
    syncFinalProps cfgBobPto (singleEventProvider evPTOMonday) (fun _ => true)
      1000 2000 none 5 = some 1000
    ∧ syncFinalProps cfgBobPto (singleEventProvider evPTOMonday) (fun _ => false)
      1000 2000 none 5 = some 1000 :=
  sync2_watermark_unconditional cfgBobPto (singleEventProvider evPTOMonday)
    (fun _ => true) (fun _ => false) 1000 2000 none 5 (by decide)

/-- One user's keyword-loop count equals the per-keyword filtered totals and
equals the number of attempts. -/
theorem keywordsView_ok_count (t : String) (provider : Provider) (e u : String)
    (td md : Nat) (lr : Option Nat) (fuel : Nat) (kws : List String)
    (r : Nat × List Event)
    (h : keywordsView t provider e u td md lr fuel kws = Res.ok r) :
    r.1 = keywordFilteredCount provider e td md lr fuel kws ∧ r.1 = r.2.length := by
  induction kws generalizing r with
  | nil =>
    injection h with h
    rw [← h]
    exact ⟨rfl, rfl⟩
  | cons kw rest ih =>
    revert h
    simp only [keywordsView]
    cases hf : findEvents2 provider e kw td md lr fuel with
    | thrown => intro h; exact Res.noConfusion h
    | outOfFuel => intro h; exact Res.noConfusion h
    | ok events =>
      cases hr : keywordsView t provider e u td md lr fuel rest with
      | thrown => intro h; exact Res.noConfusion h
      | outOfFuel => intro h; exact Res.noConfusion h
      | ok r2 =>
        intro h
        injection h with h
        obtain ⟨h1, h2⟩ := ih r2 hr
        rw [← h]
        constructor
        · simp [keywordFilteredCount, hf, resLen, h1]
        · simp [h2]

/-- The pass total count equals the sum over all (user, keyword) pairs of the
filtered-event counts, and equals the number of attempts. -/
theorem usersView_ok_count (t : String) (provider : Provider) (kws : List String)
    (td md : Nat) (lr : Option Nat) (fuel : Nat) (emails : List String)
    (r : Nat × List Event)
    (h : usersView t provider kws td md lr fuel emails = Res.ok r) :
    r.1 = (emails.map (fun e => keywordFilteredCount provider e td md lr fuel kws)).sum
    ∧ r.1 = r.2.length := by
  induction emails generalizing r with
  | nil =>
    injection h with h
    rw [← h]
    exact ⟨rfl, rfl⟩
  | cons email rest ih =>
    revert h
    simp only [usersView]
    cases hk : keywordsView t provider email (jsSplitAtHead email) td md lr fuel kws with
    | thrown => intro h; exact Res.noConfusion h
    | outOfFuel => intro h; exact Res.noConfusion h
    | ok r1 =>
      cases hr : usersView t provider kws td md lr fuel rest with
      | thrown => intro h; exact Res.noConfusion h
      | outOfFuel => intro h; exact Res.noConfusion h
      | ok r2 =>
        intro h
        injection h with h
        obtain ⟨ha, hb⟩ := keywordsView_ok_count t provider email (jsSplitAtHead email)
          td md lr fuel kws r1 hk
        obtain ⟨h1, h2⟩ := ih r2 hr
        rw [← h]
        exact ⟨by simp [ha, h1], by simp [hb, h2]⟩

/-! ## C10 -/

/-- C10: the counter logged as "Imported N events" counts the events that
passed `shouldImportEvent2`, summed over all (user, keyword) pairs: it
equals the number of import *attempts*, not the number of successful
ones, and is unchanged under any other import-success oracle `g`. -/
theorem sync2_count_counts_filtered_events (cfg : SyncConfig)
    (provider : Provider) (f g : Event → Bool) (today maxDate : Nat)
    (props : Option Nat) (fuel : Nat)
    (h : (sync2 cfg provider f today maxDate props fuel).isOkB = true) :
    resCount (sync2 cfg provider f today maxDate props fuel)
      = passFilteredCount cfg provider today maxDate props fuel
    ∧ resCount (sync2 cfg provider f today maxDate props fuel)
      = (resAttempts (sync2 cfg provider f today maxDate props fuel)).length
    ∧ resCount (sync2 cfg provider f today maxDate props fuel)
      = resCount (sync2 cfg provider g today maxDate props fuel) := by
  have hview := sync2_view cfg provider f today maxDate props fuel
  have hind := sync2_importOk_irrelevant cfg provider f g today maxDate props fuel
  refine ⟨?_, ?_, (res_components_of_view_eq hind).2.1⟩ <;>
  · cases hf : sync2 cfg provider f today maxDate props fuel with
    | thrown => rw [hf] at h; simp [Res.isOkB] at h
    | outOfFuel => rw [hf] at h; simp [Res.isOkB] at h
    | ok o =>
      rw [hf] at hview
      cases hu : usersView cfg.teamCalendarId provider cfg.keywords today maxDate
          props fuel cfg.userEmails with
      | thrown => rw [hu] at hview; exact Res.noConfusion hview
      | outOfFuel => rw [hu] at hview; exact Res.noConfusion hview
      | ok r =>
        rw [hu] at hview
        injection hview with hview
        simp only [Prod.mk.injEq] at hview
        obtain ⟨hcount, hattempts, _⟩ := hview
        have hchar := usersView_ok_count cfg.teamCalendarId provider cfg.keywords
          today maxDate props fuel cfg.userEmails r hu
        simp only [resCount, resAttempts, hcount, hattempts]
        first
        | exact hchar.1
        | rw [hchar.2]

/-- C10 witness: with every provider import failing, one filtered event still
yields count 1 — the attempts list has one entry while nothing succeeded. -/
theorem sync2_count_counts_filtered_events_witness :
    (resCount (sync2 cfgBobPto (singleEventProvider evPTOMonday) (fun _ => false)
        1000 2000 none 5)
      = passFilteredCount cfgBobPto (singleEventProvider evPTOMonday) 1000 2000 none 5
    ∧ resCount (sync2 cfgBobPto (singleEventProvider evPTOMonday) (fun _ => false)
        1000 2000 none 5)
      = (resAttempts (sync2 cfgBobPto (singleEventProvider evPTOMonday) (fun _ => false)
          1000 2000 none 5)).length
    ∧ resCount (sync2 cfgBobPto (singleEventProvider evPTOMonday) (fun _ => false)
        1000 2000 none 5)
      = resCount (sync2 cfgBobPto (singleEventProvider evPTOMonday) (fun _ => true)
          1000 2000 none 5))
    ∧ resCount (sync2 cfgBobPto (singleEventProvider evPTOMonday) (fun _ => false)
        1000 2000 none 5) = 1
    ∧ resSucceeded (sync2 cfgBobPto (singleEventProvider evPTOMonday) (fun _ => false)
        1000 2000 none 5) = [] :=
  ⟨sync2_count_counts_filtered_events cfgBobPto (singleEventProvider evPTOMonday)
      (fun _ => false) (fun _ => true) 1000 2000 none 5 (by decide),
   by decide, by decide⟩

/-! ## C7 -/

/-- C7: within one (user, keyword) pairing each mirrored event comes from
exactly one source event — the attempts are the one-to-one transforms of the
filtered list — but there is no deduplication across keywords: the concrete
Monday event whose summary matches both configured keywords "pto" and "ooo"
is imported twice in the same pass. -/
theorem sync2_no_dedup_across_keywords (t : String) (f : Event → Bool)
    (u : String) (evs : List Event) :
    (processEvents t f u evs).2.1 = evs.map (importTransform t u)
    ∧ resCount (sync2 cfgBobTwoKeywords (singleEventProvider evPtoOoo)
        (fun _ => true) 1000 2000 none 5) = 2
    ∧ resAttempts (sync2 cfgBobTwoKeywords (singleEventProvider evPtoOoo)
        (fun _ => true) 1000 2000 none 5)
      = [importTransform "team@group.calendar.google.com" "bob" evPtoOoo,
         importTransform "team@group.calendar.google.com" "bob" evPtoOoo] :=
  ⟨(processEvents_length_map t f u evs).2, by decide, by decide⟩

/-! ## C9 -/

/-- C9: when `event.summary` is a present string and `event.start` is
present carrying a `dateTime` or a `date`, `shouldImportEvent2` returns a
boolean (no fault); but on an event lacking a summary the unguarded
`event.summary.toLowerCase()` throws outside `findEvents2`'s try/catch, the
pass aborts (`Res.thrown`) and the `lastRun` watermark is left unwritten. -/
theorem shouldImportEvent2_total_and_missing_summary_aborts
    (email keyword : String) (ev : Event) (st : EventStart)
    (h1 : ev.summary.isSome = true)
    (h2 : ev.start = some st)
    (h3 : st.dateTime.isSome = true ∨ st.date.isSome = true) :
    (shouldImportEvent2 email keyword ev).isSome = true
    ∧ evNoSummary.summary = none
    ∧ sync2 cfgBobPto (singleEventProvider evNoSummary) (fun _ => true)
        1000 2000 none 5 = Res.thrown
    ∧ syncFinalProps cfgBobPto (singleEventProvider evNoSummary) (fun _ => true)
        1000 2000 none 5 = none := by
  refine ⟨?_, by decide, by decide, by decide⟩
  obtain ⟨s, hs⟩ := Option.isSome_iff_exists.mp h1
  by_cases hk : jsIndexOf (lowerData s) keyword.data < 0
  · simp [shouldImportEvent2, hs, if_pos hk]
  · by_cases hw : startDay st = some 0 ∨ startDay st = some 6
    · simp [shouldImportEvent2, hs, h2, if_neg hk, if_pos hw]
    · cases ho : ev.organizer with
      | none => simp [shouldImportEvent2, hs, h2, if_neg hk, if_neg hw, ho]
      | some org =>
        by_cases he : org.email = some email
        · simp [shouldImportEvent2, hs, h2, if_neg hk, if_neg hw, ho, if_pos he]
        · cases ha : ev.attendees with
          | none =>
            simp [shouldImportEvent2, hs, h2, if_neg hk, if_neg hw, ho, if_neg he, ha]
          | some atts =>
            cases hfa : atts.filter (fun a => a.self) with
            | nil =>
              simp [shouldImportEvent2, hs, h2, if_neg hk, if_neg hw, ho, if_neg he,
                ha, hfa]
            | cons a rest =>
              simp [shouldImportEvent2, hs, h2, if_neg hk, if_neg hw, ho, if_neg he,
                ha, hfa]

/-- C9 witness: a well-formed event gets a boolean verdict, while the
missing-summary pass aborts with no watermark written. -/
theorem shouldImportEvent2_total_and_missing_summary_aborts_witness :
    (shouldImportEvent2 "bob@example.com" "pto" evPTOMonday).isSome = true
    ∧ evNoSummary.summary = none
    ∧ sync2 cfgBobPto (singleEventProvider evNoSummary) (fun _ => true)
        1000 2000 none 5 = Res.thrown
    ∧ syncFinalProps cfgBobPto (singleEventProvider evNoSummary) (fun _ => true)
        1000 2000 none 5 = none :=
  shouldImportEvent2_total_and_missing_summary_aborts "bob@example.com" "pto"
    evPTOMonday { dateTime := none, date := some mondayMs }
    (by decide) (by decide) (Or.inr (by decide))
